import Mathlib

/-!
Shallow embedding of the core reconciliation logic of `app.py`
(Cholimex display checker): period-label parsing (`parse_giai_to_dt`),
per-file loading (`xu_ly_file`), the outer join and row classification
(`xu_ly_chuong_trinh` / inner `xet`), deduplication, the shortfall
note rewriting, and the period-selection loop of the report generator.

Quotas, sales amounts and thresholds are modelled as `Int` (the Python
floats hold integral money amounts; every comparison used by the code is
order-based and unaffected).  Pandas `NaN` cells are modelled as `none`
of an `Option`, and the pandas/Python stable sorts as an insertion sort.
-/

/-- Python `str.strip()`: drop whitespace from both ends.  (`String.trim`
itself does not reduce in the kernel, so the model works on the
character list.) -/
def pyStrip (s : String) : String :=
  String.mk (((s.toList.dropWhile Char.isWhitespace).reverse.dropWhile Char.isWhitespace).reverse)

/-- Code-point comparison of char lists, mirroring Python string `<`. -/
def charListLt : List Char → List Char → Bool
  | [], [] => false
  | [], _ :: _ => true
  | _ :: _, [] => false
  | a :: as, b :: bs =>
    if a < b then true else if b < a then false else charListLt as bs

/-- Python string `<` (code-point lexicographic). -/
def strLtB (s t : String) : Bool := charListLt s.toList t.toList

/-- Python string `<=`. -/
def strLeB (s t : String) : Bool := s == t || strLtB s t

/-- Ordering on an optional string where a missing value (`NaN`) sorts
first, as with pandas `na_position="first"`. -/
def optStrLeB : Option String → Option String → Bool
  | none, _ => true
  | some _, none => false
  | some a, some b => strLeB a b

/-- Stable insertion of `x` after all already-present elements `y` with
`le y x` (the model of one step of Python's stable sort). -/
def insSorted (le : α → α → Bool) (x : α) : List α → List α
  | [] => [x]
  | y :: ys => if le y x then y :: insSorted le x ys else x :: y :: ys

/-- Stable sort (model of Python `sorted` / pandas `sort_values`). -/
def stableSort (le : α → α → Bool) (l : List α) : List α :=
  l.foldl (fun acc x => insSorted le x acc) []

/-- The four classification outcomes produced by `xet` in `app.py`:
`"Đạt"` (Pass), `"Không đạt"` (Fail), `"Không xét"` (NotEvaluated) and
`"XOA"` (Withdrawn). -/
inductive KetQua
  | dat
  | khongDat
  | khongXet
  | xoa
deriving DecidableEq, Repr

/-- A normalized enrollment record as produced by `xu_ly_file` for one
period: original registration level (`MucDK`), customer id (`MaKH`),
distributor id (`MaNPP`, `none` when the cell is empty), registered
quota (`SoSuat`), accumulated sales (`DoanhSo`) and the derived
minimum threshold (`NguongToiThieu`). -/
structure Rec where
  mucDK : String
  maKH : String
  maNPP : Option String
  soSuat : Int
  doanhSo : Int
  nguong : Int
deriving DecidableEq, Repr

/-- One row of the outer join of T1 and T2 on `(MaKH, MucDK)`
(`pd.merge(..., how="outer")` followed by `fillna(0)` on the numeric
period columns): quotas `ss1/ss2`, sales `ds1/ds2`, thresholds `n1/n2`,
and the T2-side distributor id (`NaN`, i.e. `none`, for rows absent
from T2). -/
structure JoinedRow where
  maKH : String
  mucDK : String
  maNPP_T2 : Option String
  ss1 : Int
  ss2 : Int
  ds1 : Int
  ds2 : Int
  n1 : Int
  n2 : Int
deriving DecidableEq, Repr

/-- The `(MaKH, MucDK)` key pairs of a record list
(`set(zip(df["MaKH"], df["MucDK"]))`). -/
def keysOf (rs : List Rec) : List (String × String) :=
  rs.map fun r => (r.maKH, r.mucDK)

/-- `new_in_T1_keys = keys_t1 - keys_t0`: keys present in T1 but absent
from T0. -/
def newInT1Keys (t0 t1 : List Rec) : List (String × String) :=
  (keysOf t1).filter fun k => !((keysOf t0).contains k)

/-- The row-classification function `xet` of `xu_ly_chuong_trinh`,
translated rule for rule (same guard order, first match wins), returning
the `(KetQua, GhiChu)` pair. -/
def xet (newKeys : List (String × String)) (r : JoinedRow) : KetQua × String :=
  if r.ss1 > 0 && r.ss2 == 0 then
    (KetQua.xoa, "Tháng trước có tham gia, tháng sau không tham gia")
  else if r.ss1 > 0 && newKeys.contains (r.maKH, r.mucDK) then
    (KetQua.dat, "Khách mới tháng trước (DS xét chu kỳ 11/T0→10/T1)")
  else if r.ss1 == 0 && r.ss2 > 0 then
    (KetQua.khongXet, "Khách hàng mới tháng sau (không xét kết quả kỳ này)")
  else if r.ss2 > r.ss1 && r.ss1 > 0 then
    (KetQua.dat, s!"Nâng suất từ {r.ss1} → {r.ss2} (auto đạt)")
  else if r.ss2 < r.ss1 then
    if r.ds1 >= r.n1 || r.ds2 >= r.n2 then
      (KetQua.dat, s!"Giảm suất từ {r.ss1} → {r.ss2} (1 trong 2 tháng đủ ngưỡng)")
    else
      (KetQua.khongDat, s!"Giảm suất từ {r.ss1} → {r.ss2} (2 tháng đều không đủ ngưỡng)")
  else if r.ds1 >= r.n1 || r.ds2 >= r.n2 then
    (KetQua.dat, "")
  else
    (KetQua.khongDat, "Doanh số 2 tháng liên tiếp không đủ theo yêu cầu")

/-- The outcome rules exactly as the specification words them, first
match wins, outcome component only. -/
def xetSpecOutcome (newKeys : List (String × String)) (r : JoinedRow) : KetQua :=
  if r.ss1 > 0 ∧ r.ss2 = 0 then KetQua.xoa
  else if r.ss1 > 0 ∧ (r.maKH, r.mucDK) ∈ newKeys then KetQua.dat
  else if r.ss1 = 0 ∧ r.ss2 > 0 then KetQua.khongXet
  else if r.ss2 > r.ss1 ∧ r.ss1 > 0 then KetQua.dat
  else if r.ss2 < r.ss1 then
    (if r.ds1 ≥ r.n1 ∨ r.ds2 ≥ r.n2 then KetQua.dat else KetQua.khongDat)
  else
    (if r.ds1 ≥ r.n1 ∨ r.ds2 ≥ r.n2 then KetQua.dat else KetQua.khongDat)

/-- A classified joined row: the row together with its `(KetQua, GhiChu)`
pair as produced by `df.apply(xet)`. -/
abbrev CRow := JoinedRow × KetQua × String

/-- `df.apply(lambda r: pd.Series(xet(r)), axis=1)`: classify every
joined row. -/
def classifyRows (ks : List (String × String)) (rows : List JoinedRow) : List CRow :=
  rows.map fun r => (r, xet ks r)

/-- `df_removed = df[df["KetQua"] == "XOA"]`. -/
def dfRemoved (l : List CRow) : List CRow :=
  l.filter fun c => c.2.1 == KetQua.xoa

/-- `df_final = df[df["KetQua"] != "XOA"]`. -/
def dfFinal (l : List CRow) : List CRow :=
  l.filter fun c => c.2.1 != KetQua.xoa

/-- `pd.merge(df_t1, df_t2, on=["MaKH", "MucDK"], how="outer")` with the
subsequent `fillna(0)` of the numeric period columns: matched pairs of
rows are combined; T1 rows without a T2 partner get 0 for the T2 quota,
sales and threshold (and a missing T2 distributor id); unmatched T2 rows
get 0 on the T1 side. -/
def outerJoin (t1 t2 : List Rec) : List JoinedRow :=
  (t1.flatMap fun a =>
    match t2.filter (fun b => a.maKH == b.maKH && a.mucDK == b.mucDK) with
    | [] => [{ maKH := a.maKH, mucDK := a.mucDK, maNPP_T2 := none,
               ss1 := a.soSuat, ss2 := 0, ds1 := a.doanhSo, ds2 := 0,
               n1 := a.nguong, n2 := 0 }]
    | ms => ms.map fun b =>
        { maKH := a.maKH, mucDK := a.mucDK, maNPP_T2 := b.maNPP,
          ss1 := a.soSuat, ss2 := b.soSuat, ds1 := a.doanhSo, ds2 := b.doanhSo,
          n1 := a.nguong, n2 := b.nguong }) ++
  ((t2.filter fun b => !(t1.any fun a => a.maKH == b.maKH && a.mucDK == b.mucDK)).map
    fun b => { maKH := b.maKH, mucDK := b.mucDK, maNPP_T2 := b.maNPP,
               ss1 := 0, ss2 := b.soSuat, ds1 := 0, ds2 := b.doanhSo,
               n1 := 0, n2 := b.nguong })

/-- A joined row decorated with the carried-forward T0 quota and sales
(`NaN`, i.e. `none`, when the customer id has no T0 match). -/
structure JoinedRow0 where
  base : JoinedRow
  ss0 : Option Int
  ds0 : Option Int
deriving DecidableEq, Repr

/-- `df.merge(df_t0[["MaKH", "SoSuat_g0", "DoanhSo_g0"]], on="MaKH",
how="left")`: the T0 figures are joined onto reconciled rows by customer
id alone; each row is repeated once per matching T0 row. -/
def leftJoinT0 (rows : List JoinedRow) (t0 : List Rec) : List JoinedRow0 :=
  rows.flatMap fun r =>
    match t0.filter (fun b => b.maKH == r.maKH) with
    | [] => [{ base := r, ss0 := none, ds0 := none }]
    | ms => ms.map fun b => { base := r, ss0 := some b.soSuat, ds0 := some b.doanhSo }

/-- The T0-supplied reconciliation pipeline of `xu_ly_chuong_trinh` up to
classification: build `new_in_T1_keys`, outer-join T1/T2, left-join the
T0 figures by customer id, then classify each row with `xet`. -/
def classifyAllT0 (t0 t1 t2 : List Rec) : List (JoinedRow0 × KetQua × String) :=
  let ks := newInT1Keys t0 t1
  (leftJoinT0 (outerJoin t1 t2) t0).map fun j => (j, xet ks j.base)

/-- `drop_duplicates(subset=key, keep="last")`: keep each element whose
key does not occur again later in the list. -/
def dropDupKeepLast [BEq β] (key : α → β) (l : List α) : List α :=
  l.foldr (fun r acc => if acc.any (fun x => key x == key r) then acc else r :: acc) []

/-- The sort key of the deduplication step:
`sort_values(by=["MaKH", "MaNPP_T2"], na_position="first")`. -/
def crowLeB (a b : CRow) : Bool :=
  strLtB a.1.maKH b.1.maKH ||
    (a.1.maKH == b.1.maKH && optStrLeB a.1.maNPP_T2 b.1.maNPP_T2)

/-- `counts = df_final["MaKH"].value_counts()` of the duplicate-customer
handling of `xu_ly_chuong_trinh` (lines 336-344). -/
def dedupCounts (final : List CRow) (k : String) : Nat :=
  final.countP fun c => c.1.maKH == k

/-- `df_final.sort_values(by=["MaKH", "MaNPP_T2"],
na_position="first").drop_duplicates(subset=["MaKH"], keep="last")`. -/
def dedupKept (final : List CRow) : List CRow :=
  dropDupKeepLast (fun c : CRow => c.1.maKH) (stableSort crowLeB final)

/-- `df_removed_multi`: the duplicate rows (customer ids counted more
than once) whose customer id is ABSENT from the deduplicated frame (the
`how="left", indicator=True` merge on `MaKH` followed by the
`left_only` filter), with the duplicate-count note substituted in. -/
def dedupRemoved (final : List CRow) : List CRow :=
  ((final.filter fun c => 1 < dedupCounts final c.1.maKH).filter
    fun c => !((dedupKept final).any fun d => d.1.maKH == c.1.maKH)).map fun c =>
      (c.1, c.2.1,
        s!"Khách hàng xuất hiện {dedupCounts final c.1.maKH} lần, đã giữ bản ghi NPP mới nhất")

/-- The duplicate-customer stage of `xu_ly_chuong_trinh`: the kept
frame after dropping duplicates, and the removed-duplicates records. -/
def dedupStage (final : List CRow) : List CRow × List CRow :=
  (dedupKept final, dedupRemoved final)

/-- Numeric value of a digit-character list. -/
def natOfDigits (cs : List Char) : Nat :=
  cs.foldl (fun n c => n * 10 + (c.toNat - 48)) 0

/-- After the month group of `(\d{1,2})\D+([12]\d{3})`: a maximal
nonempty run of non-digits followed by a year `[12]\d{3}`. -/
def dPlusYear (cs : List Char) : Option Nat :=
  let nd := cs.takeWhile fun c => !c.isDigit
  if nd.isEmpty then none
  else
    match cs.drop nd.length with
    | y1 :: y2 :: y3 :: y4 :: _ =>
      if (y1 == '1' || y1 == '2') && y2.isDigit && y3.isDigit && y4.isDigit then
        some (natOfDigits [y1, y2, y3, y4])
      else none
    | _ => none

/-- Match of `(\d{1,2})\D+([12]\d{3})` anchored at the current position
(greedy 2-digit month group first, then 1 digit). -/
def p1At : List Char → Option (Nat × Nat)
  | [] => none
  | c1 :: rest =>
    if !c1.isDigit then none
    else
      match rest with
      | c2 :: rest2 =>
        if c2.isDigit then
          (dPlusYear rest2).map fun y => (natOfDigits [c1, c2], y)
        else
          (dPlusYear rest).map fun y => (c1.toNat - 48, y)
      | [] => none

/-- `re.search` of the first pattern: leftmost match of month then year,
e.g. `"Tháng 11/2025"` and `"11/2025"`. -/
def searchP1 : List Char → Option (Nat × Nat)
  | [] => none
  | c :: rest =>
    match p1At (c :: rest) with
    | some r => some r
    | none => searchP1 rest

/-- Match of `([12]\d{3})\D+(\d{1,2})` anchored at the current position:
year, nonempty non-digit run, then a greedy 1-2 digit month. -/
def p2At (cs : List Char) : Option (Nat × Nat)  :=
  match cs with
  | y1 :: y2 :: y3 :: y4 :: rest =>
    if (y1 == '1' || y1 == '2') && y2.isDigit && y3.isDigit && y4.isDigit then
      let nd := rest.takeWhile fun c => !c.isDigit
      if nd.isEmpty then none
      else
        match rest.drop nd.length with
        | d1 :: d2 :: _ =>
          if d2.isDigit then some (natOfDigits [y1, y2, y3, y4], natOfDigits [d1, d2])
          else some (natOfDigits [y1, y2, y3, y4], d1.toNat - 48)
        | [d1] => some (natOfDigits [y1, y2, y3, y4], d1.toNat - 48)
        | [] => none
    else none
  | _ => none

/-- `re.search` of the second pattern (`"2025-11"`, `"2025/11"`). -/
def searchP2 : List Char → Option (Nat × Nat)
  | [] => none
  | c :: rest =>
    match p2At (c :: rest) with
    | some r => some r
    | none => searchP2 rest

/-- `re.fullmatch(r'[Tt]?(\d{1,2})', s)`: a bare month, optionally
prefixed with `T`/`t`, spanning the whole string. -/
def p3Full (cs : List Char) : Option Nat :=
  let ds := match cs with
    | 'T' :: r => r
    | 't' :: r => r
    | r => r
  match ds with
  | [d1] => if d1.isDigit then some (d1.toNat - 48) else none
  | [d1, d2] => if d1.isDigit && d2.isDigit then some (natOfDigits [d1, d2]) else none
  | _ => none

/-- `datetime(yy, mm, 1)`: raises when the month is out of range. -/
def mkMonth (yy mm : Nat) : Except String (Nat × Nat) :=
  if 1 ≤ mm ∧ mm ≤ 12 then Except.ok (yy, mm)
  else Except.error "month must be in 1..12"

/-- `parse_giai_to_dt`: strip the label, try the three recognizers in
order, then fall back to `pd.to_datetime(s, dayfirst=True)` — modelled
by the `pdParse` argument since it is a pandas library call — and, when
everything fails, RAISE `ValueError` (modelled as `Except.error`).  The
returned ordinal is the `(year, month)` of `datetime(yy, mm, 1)`;
`currentYear` stands for `datetime.now().year`. -/
def parse_giai_to_dt (pdParse : String → Option (Nat × Nat)) (currentYear : Nat)
    (giai : String) : Except String (Nat × Nat) :=
  let s := pyStrip giai
  match searchP1 s.toList with
  | some (mm, yy) => mkMonth yy mm
  | none =>
    match searchP2 s.toList with
    | some (yy, mm) => mkMonth yy mm
    | none =>
      match p3Full s.toList with
      | some mm => mkMonth currentYear mm
      | none =>
        match pdParse s with
        | some (yy, mm) => Except.ok (yy, mm)
        | none => Except.error ("Không nhận diện được Giai đoạn: " ++ s)

/-- One recognized uploaded file in the upload loop: name, raw period
label, and parsed ordinal. -/
structure FileEnt where
  name : String
  giai : String
  dt : Nat × Nat
deriving DecidableEq, Repr

/-- The per-file upload loop of the UI (lines 431-459) restricted to the
period-label handling it checks: each file's label is parsed with
`parse_giai_to_dt`; on success the file joins `file_entries`, on an
exception the file is skipped and a `"- Lỗi đọc ..."` diagnostic joins
`err_msgs`. -/
def uploadLoop (pdParse : String → Option (Nat × Nat)) (currentYear : Nat) :
    List (String × String) → List FileEnt × List String
  | [] => ([], [])
  | f :: fs =>
    let rest := uploadLoop pdParse currentYear fs
    match parse_giai_to_dt pdParse currentYear f.2 with
    | Except.ok dt => ({ name := f.1, giai := f.2, dt := dt } :: rest.1, rest.2)
    | Except.error e => (rest.1, ("- Lỗi đọc " ++ f.1 ++ ": " ++ e) :: rest.2)

/-- One raw input row of a period file as read by `xu_ly_file` after
column selection and renaming: the registration level and customer id
cells, the distributor id (`none` when empty), the registered-quota cell
(`none` when `pd.to_numeric(..., errors="coerce")` yields `NaN`), and
the accumulated sales. -/
structure RawRow where
  mucDK : String
  maKH : String
  maNPP : Option String
  soSuat : Option Int
  doanhSo : Int
deriving DecidableEq, Repr

/-- The per-row threshold derivation of `xu_ly_file` (lines 273-276):
strip the registration level, resolve it through `xbm_map` (falling back
to the stripped original), look up the base per-slot minimum in
`muc_toi_thieu` (0 when absent), and multiply by the numeric coercion of
the quota (0 when non-numeric).  The record keeps the ORIGINAL
`MucDK` cell — only the threshold uses the resolved level. -/
def xu_ly_file_row (mucToiThieu : List (String × Int)) (xbmMap : List (String × String))
    (r : RawRow) : Rec :=
  let stripped := pyStrip r.mucDK
  let mucResolved := (xbmMap.lookup stripped).getD stripped
  let base := (mucToiThieu.lookup mucResolved).getD 0
  { mucDK := r.mucDK, maKH := r.maKH, maNPP := r.maNPP,
    soSuat := r.soSuat.getD 0, doanhSo := r.doanhSo,
    nguong := base * r.soSuat.getD 0 }

/-- One uploaded file entry as seen by the report-generation loop:
only its parsed period ordinal matters for period selection. -/
structure Entry where
  name : String
  dt : Nat × Nat
deriving DecidableEq, Repr

/-- Chronological order on parsed `(year, month)` ordinals. -/
def dtLeB (a b : Nat × Nat) : Bool :=
  decide (a.1 < b.1) || (a.1 == b.1 && decide (a.2 ≤ b.2))

/-- Sort key of `sorted(items, key=lambda x: x["dt"])`. -/
def entLeB (a b : Entry) : Bool := dtLeB a.dt b.dt

/-- The last two elements of a list, in order. -/
def last2 : List α → Option (α × α)
  | [] => none
  | [_] => none
  | [x, y] => some (x, y)
  | _ :: y :: z :: r => last2 (y :: z :: r)

/-- The period selection of the report loop (lines 529-538): sort the
program group's files by parsed date; skip the group when fewer than two
periods exist; otherwise T2 is the last, T1 the second-to-last, and T0
is `items_sorted[0]` — the FIRST element of the sorted list — provided
at least three periods exist. -/
def selectPeriods (items : List Entry) : Option (Entry × Entry × Option Entry) :=
  match last2 (stableSort entLeB items) with
  | none => none
  | some (t1, t2) =>
    some (t1, t2,
      if 3 ≤ (stableSort entLeB items).length then (stableSort entLeB items).head? else none)

/-- A projected output row (`df_out`) restricted to the fields that the
shortfall-note rewriting reads and writes: the outcome, the note, the
`"Ngưỡng tối thiểu"` column (the T2 threshold), and the accumulated
sales of the at most three period columns (`none` when the optional T0
figure is missing; a missing cell is modelled as 0 when read). -/
structure OutRow where
  ketQua : KetQua
  ghiChu : String
  nguong : Int
  ds0 : Option Int
  ds1 : Int
  ds2 : Int
deriving DecidableEq, Repr

/-- Shared prefix of the accumulated-sales display columns. -/
def dsPrefix : String := "Doanh số tích lũy "

/-- Thousands grouping of a reversed digit list: a `'.'` after every
three digits. -/
def grpRev : List Char → List Char
  | c1 :: c2 :: c3 :: c4 :: rest => c1 :: c2 :: c3 :: '.' :: grpRev (c4 :: rest)
  | l => l

/-- `fmt_v`: `f"{int(round(float(v))):,}".replace(",", ".")` for an
integral amount. -/
def fmt_v (v : Int) : String :=
  if v < 0 then "-" ++ String.mk ((grpRev (Nat.repr v.natAbs).toList.reverse).reverse)
  else String.mk ((grpRev (Nat.repr v.toNat).toList.reverse).reverse)

/-- The GSBH-note rewriting (lines 391-399): collect the output columns
starting with `"Doanh số tích lũy "` (T0's, T1's and T2's labels), sort
them as STRINGS, take the last, and overwrite the note of every
`"Không đạt"` row with `"Thiếu: "` followed by the thousands-formatted
difference between the `"Ngưỡng tối thiểu"` column and that sales
column, floored at 0.  Other rows keep their note. -/
def gsbhNote (g0 : Option String) (g1 g2 : String) (rows : List OutRow) : List OutRow :=
  match (stableSort strLeB ((match g0 with
    | some g => [dsPrefix ++ g]
    | none => []) ++ [dsPrefix ++ g1, dsPrefix ++ g2])).getLast? with
  | none => rows
  | some chosen =>
    rows.map fun r =>
      if r.ketQua == KetQua.khongDat then
        { r with ghiChu := "Thiếu: " ++ fmt_v (max (r.nguong -
            (if chosen == dsPrefix ++ g2 then r.ds2
             else if chosen == dsPrefix ++ g1 then r.ds1
             else r.ds0.getD 0)) 0) }
      else r

theorem insSorted_perm (le : α → α → Bool) (x : α) (l : List α) :
    (insSorted le x l).Perm (x :: l) := by
  induction l with
  | nil => simp [insSorted]
  | cons y ys ih =>
    simp only [insSorted]
    by_cases h : le y x = true
    · simp only [h, if_true]
      exact ((ih.cons y).trans (List.Perm.swap x y ys))
    · simp [h]

theorem stableSortAux_perm (le : α → α → Bool) :
    ∀ (l acc : List α), (l.foldl (fun a x => insSorted le x a) acc).Perm (acc ++ l) := by
  intro l
  induction l with
  | nil => intro acc; simp
  | cons x xs ih =>
    intro acc
    exact (ih (insSorted le x acc)).trans
      (((insSorted_perm le x acc).append_right xs).trans List.perm_middle.symm)

theorem stableSort_perm (le : α → α → Bool) (l : List α) : (stableSort le l).Perm l :=
  (stableSortAux_perm le l []).trans (by simp)

theorem mem_stableSort (le : α → α → Bool) {l : List α} {x : α} :
    x ∈ stableSort le l ↔ x ∈ l :=
  (stableSort_perm le l).mem_iff

theorem insSorted_pairwise (le : α → α → Bool)
    (htot : ∀ a b, le a b = true ∨ le b a = true)
    (htrans : ∀ a b c, le a b = true → le b c = true → le a c = true)
    (x : α) {l : List α} (h : l.Pairwise fun a b => le a b = true) :
    (insSorted le x l).Pairwise fun a b => le a b = true := by
  induction l with
  | nil => simp [insSorted]
  | cons y ys ih =>
    rw [List.pairwise_cons] at h
    obtain ⟨hy, hys⟩ := h
    simp only [insSorted]
    by_cases hle : le y x = true
    · simp only [hle, if_true]
      refine List.Pairwise.cons ?_ (ih hys)
      intro z hz
      have hz' := (insSorted_perm le x ys).mem_iff.mp hz
      rw [List.mem_cons] at hz'
      rcases hz' with rfl | hz'
      · exact hle
      · exact hy _ hz'
    · simp only [hle, if_false]
      refine List.Pairwise.cons ?_ (List.Pairwise.cons hy hys)
      intro z hz
      rw [List.mem_cons] at hz
      rcases hz with rfl | hz
      · rcases htot x z with h' | h'
        · exact h'
        · exact absurd h' hle
      · rcases htot x y with h' | h'
        · exact htrans _ _ _ h' (hy _ hz)
        · exact absurd h' hle

theorem stableSort_pairwise (le : α → α → Bool)
    (htot : ∀ a b, le a b = true ∨ le b a = true)
    (htrans : ∀ a b c, le a b = true → le b c = true → le a c = true)
    (l : List α) :
    (stableSort le l).Pairwise fun a b => le a b = true := by
  suffices h : ∀ (l acc : List α), (acc.Pairwise fun a b => le a b = true) →
      ((l.foldl (fun a x => insSorted le x a) acc).Pairwise fun a b => le a b = true) by
    exact h l [] List.Pairwise.nil
  intro l
  induction l with
  | nil => intro acc h; simpa using h
  | cons x xs ih =>
    intro acc h
    exact ih _ (insSorted_pairwise le htot htrans x h)

theorem le_refl_of_total (le : α → α → Bool)
    (htot : ∀ a b, le a b = true ∨ le b a = true) (a : α) : le a a = true := by
  rcases htot a a with h | h <;> exact h

theorem pairwise_head_min (le : α → α → Bool)
    (htot : ∀ a b, le a b = true ∨ le b a = true)
    {l : List α} (h : l.Pairwise fun a b => le a b = true)
    {x : α} (hx : l.head? = some x) {y : α} (hy : y ∈ l) : le x y = true := by
  cases l with
  | nil => simp at hx
  | cons a as =>
    simp only [List.head?_cons, Option.some.injEq] at hx
    subst hx
    rw [List.pairwise_cons] at h
    rw [List.mem_cons] at hy
    rcases hy with rfl | hy
    · exact le_refl_of_total le htot _
    · exact h.1 _ hy

theorem pairwise_last_max (le : α → α → Bool)
    (htot : ∀ a b, le a b = true ∨ le b a = true) :
    ∀ (l : List α), (l.Pairwise fun a b => le a b = true) →
      ∀ {x : α}, l.getLast? = some x → ∀ {y : α}, y ∈ l → le y x = true := by
  intro l
  induction l with
  | nil => intro _ x hx; simp at hx
  | cons a as ih =>
    intro h x hx y hy
    rw [List.pairwise_cons] at h
    cases as with
    | nil =>
      simp only [List.getLast?] at hx
      rw [List.mem_singleton] at hy
      subst hy
      cases hx
      exact le_refl_of_total le htot _
    | cons b bs =>
      rw [List.getLast?_cons_cons] at hx
      rw [List.mem_cons] at hy
      rcases hy with rfl | hy
      · exact h.1 _ (List.mem_of_mem_getLast? hx)
      · exact ih h.2 hx hy

theorem last2_spec : ∀ (l : List α) (a b : α), last2 l = some (a, b) →
    l.getLast? = some b ∧ a ∈ l ∧ 2 ≤ l.length
  | [], a, b => by intro h; simp [last2] at h
  | [x], a, b => by intro h; simp [last2] at h
  | [x, y], a, b => by
    intro h
    simp only [last2, Option.some.injEq, Prod.mk.injEq] at h
    obtain ⟨rfl, rfl⟩ := h
    refine ⟨rfl, by simp, by simp⟩
  | x :: y :: z :: r, a, b => by
    intro h
    have hrec := last2_spec (y :: z :: r) a b h
    refine ⟨?_, ?_, ?_⟩
    · rw [List.getLast?_cons_cons]
      exact hrec.1
    · exact List.mem_cons_of_mem _ hrec.2.1
    · simp only [List.length_cons] at hrec ⊢
      omega

/-- A list whose `last2` is `some (a, b)` is some prefix followed by
`[a, b]`. -/
theorem last2_decomp : ∀ (l : List α) (a b : α), last2 l = some (a, b) →
    ∃ pre, l = pre ++ [a, b]
  | [], a, b => by intro h; simp [last2] at h
  | [x], a, b => by intro h; simp [last2] at h
  | [x, y], a, b => by
    intro h
    simp only [last2, Option.some.injEq, Prod.mk.injEq] at h
    obtain ⟨rfl, rfl⟩ := h
    exact ⟨[], rfl⟩
  | x :: y :: z :: r, a, b => by
    intro h
    obtain ⟨pre, hpre⟩ := last2_decomp (y :: z :: r) a b h
    exact ⟨x :: pre, by rw [List.cons_append, ← hpre]⟩

theorem dropDupKeepLast_cons [BEq β] (key : α → β) (r : α) (rest : List α) :
    dropDupKeepLast key (r :: rest) =
      if (dropDupKeepLast key rest).any (fun x => key x == key r) then
        dropDupKeepLast key rest
      else r :: dropDupKeepLast key rest := rfl

theorem dropDupKeepLast_covers [BEq β] [LawfulBEq β] (key : α → β) :
    ∀ (l : List α) (x : α), x ∈ l →
      ∃ y ∈ dropDupKeepLast key l, key y == key x := by
  intro l
  induction l with
  | nil => intro x hx; simp at hx
  | cons r rest ih =>
    intro x hx
    rw [List.mem_cons] at hx
    rw [dropDupKeepLast_cons]
    rcases hx with rfl | hx
    · by_cases hany : (dropDupKeepLast key rest).any (fun z => key z == key x) = true
      · rw [if_pos hany]
        rw [List.any_eq_true] at hany
        obtain ⟨y, hy, hky⟩ := hany
        exact ⟨y, hy, hky⟩
      · rw [if_neg hany]
        exact ⟨x, List.mem_cons_self x _, by simp⟩
    · obtain ⟨y, hy, hky⟩ := ih x hx
      by_cases hany : (dropDupKeepLast key rest).any (fun z => key z == key r) = true
      · rw [if_pos hany]
        exact ⟨y, hy, hky⟩
      · rw [if_neg hany]
        exact ⟨y, List.mem_cons_of_mem _ hy, hky⟩

/-- C1: `xet` assigns every joined row an (outcome, rationale) pair by
exactly the claimed rules in strict first-match-wins order over
`ss1, ss2, ds1, ds2, n1, n2` and the newly-enrolled key set; in
particular T1 quota 5 with T2 quota 0 always yields Withdrawn (`XOA`),
and T1 quota 2 with T2 quota 3 always yields Pass (`Đạt`), regardless
of sales. -/
theorem C1_xet_rules :
    (∀ ks r, (xet ks r).1 = xetSpecOutcome ks r) ∧
    (∀ ks (r : JoinedRow), r.ss1 = 5 → r.ss2 = 0 → (xet ks r).1 = KetQua.xoa) ∧
    (∀ ks (r : JoinedRow), r.ss1 = 2 → r.ss2 = 3 → (xet ks r).1 = KetQua.dat) := by
  refine ⟨fun ks r => ?_, fun ks r h1 h2 => ?_, fun ks r h1 h2 => ?_⟩
  · simp only [xet, xetSpecOutcome, Bool.and_eq_true, Bool.or_eq_true, decide_eq_true_eq,
      beq_iff_eq, gt_iff_lt, ge_iff_le, List.contains_iff_exists_mem_beq,
      exists_eq_right]
    split_ifs <;> simp_all
  · simp only [xet, h1, h2]
    norm_num
  · simp only [xet, h1, h2]
    norm_num
    split_ifs <;> rfl

/-- Witness for C1 at concrete rows: quotas (5, 0) classify as
Withdrawn even with large sales, quotas (2, 3) as Pass with zero
sales. -/
theorem C1_xet_rules_witness :
    (xet [] { maKH := "K", mucDK := "P", maNPP_T2 := none,
              ss1 := 5, ss2 := 0, ds1 := 900000, ds2 := 900000,
              n1 := 1, n2 := 1 }).1 = KetQua.xoa ∧
    (xet [] { maKH := "K", mucDK := "P", maNPP_T2 := none,
              ss1 := 2, ss2 := 3, ds1 := 0, ds2 := 0,
              n1 := 100000, n2 := 100000 }).1 = KetQua.dat :=
  ⟨C1_xet_rules.2.1 [] _ rfl rfl, C1_xet_rules.2.2 [] _ rfl rfl⟩

theorem dfSplit_length (l : List CRow) :
    (dfRemoved l).length + (dfFinal l).length = l.length := by
  induction l with
  | nil => rfl
  | cons c cs ih =>
    by_cases h : c.2.1 = KetQua.xoa <;>
      simp [dfRemoved, dfFinal, List.filter_cons, h] at ih ⊢ <;> omega

/-- C2: every row of the outer join receives exactly one of the four
outcomes; the classified rows are partitioned with no overlap into the
removed set (exactly the Withdrawn rows) and the kept set (all other
rows). -/
theorem C2_outcome_partition (ks : List (String × String)) (t1 t2 : List Rec) :
    (classifyRows ks (outerJoin t1 t2)).length = (outerJoin t1 t2).length ∧
    (∀ c ∈ classifyRows ks (outerJoin t1 t2),
      c.2.1 = KetQua.dat ∨ c.2.1 = KetQua.khongDat ∨
        c.2.1 = KetQua.khongXet ∨ c.2.1 = KetQua.xoa) ∧
    (∀ c, c ∈ dfRemoved (classifyRows ks (outerJoin t1 t2)) ↔
      c ∈ classifyRows ks (outerJoin t1 t2) ∧ c.2.1 = KetQua.xoa) ∧
    (∀ c, c ∈ dfFinal (classifyRows ks (outerJoin t1 t2)) ↔
      c ∈ classifyRows ks (outerJoin t1 t2) ∧ c.2.1 ≠ KetQua.xoa) ∧
    (∀ c, ¬(c ∈ dfRemoved (classifyRows ks (outerJoin t1 t2)) ∧
            c ∈ dfFinal (classifyRows ks (outerJoin t1 t2)))) ∧
    (dfRemoved (classifyRows ks (outerJoin t1 t2))).length +
      (dfFinal (classifyRows ks (outerJoin t1 t2))).length =
        (classifyRows ks (outerJoin t1 t2)).length := by
  refine ⟨by simp [classifyRows], ?_, ?_, ?_, ?_, dfSplit_length _⟩
  · intro c _
    rcases c with ⟨r, k, g⟩
    cases k <;> simp
  · intro c
    simp [dfRemoved, List.mem_filter]
  · intro c
    simp [dfFinal, List.mem_filter]
  · intro c h
    obtain ⟨h1, h2⟩ := h
    simp [dfRemoved, List.mem_filter] at h1
    simp [dfFinal, List.mem_filter] at h2
    exact h2.2 h1.2

/-- C3 counterexample: with a T0 period supplied, the key ("K", "P") is
absent from T0 and present in T1 with quota 1 > 0, yet — because the
customer is absent from T2 (current quota 0) — the pipeline classifies
the row Withdrawn (`XOA`), not Pass, refuting the claim as stated. -/
theorem C3_counterexample :
    ("K", "P") ∈ newInT1Keys
        [{ mucDK := "P", maKH := "OLD", maNPP := none, soSuat := 1, doanhSo := 0, nguong := 0 }]
        [{ mucDK := "P", maKH := "K", maNPP := some "A", soSuat := 1, doanhSo := 500000, nguong := 100000 }] ∧
    classifyAllT0
        [{ mucDK := "P", maKH := "OLD", maNPP := none, soSuat := 1, doanhSo := 0, nguong := 0 }]
        [{ mucDK := "P", maKH := "K", maNPP := some "A", soSuat := 1, doanhSo := 500000, nguong := 100000 }]
        [] =
      [({ base := { maKH := "K", mucDK := "P", maNPP_T2 := none, ss1 := 1, ss2 := 0,
                    ds1 := 500000, ds2 := 0, n1 := 100000, n2 := 0 },
          ss0 := none, ds0 := none },
        KetQua.xoa, "Tháng trước có tham gia, tháng sau không tham gia")] ∧
    KetQua.xoa ≠ KetQua.dat :=
  ⟨by decide, rfl, by decide⟩

/-- C3 amended: a key absent from T0 and present in T1 with quota > 0 is
classified Pass regardless of both periods' sales, PROVIDED the current
(T2) quota is nonzero — otherwise the withdrawal rule fires first. -/
theorem C3_amended (t0 t1 : List Rec) (r : JoinedRow)
    (habs : (r.maKH, r.mucDK) ∉ keysOf t0)
    (hpres : (r.maKH, r.mucDK) ∈ keysOf t1)
    (h1 : 0 < r.ss1) (h2 : r.ss2 ≠ 0) :
    (xet (newInT1Keys t0 t1) r).1 = KetQua.dat := by
  have hmem : (r.maKH, r.mucDK) ∈ newInT1Keys t0 t1 := by
    simp only [newInT1Keys, List.mem_filter, Bool.not_eq_true']
    refine ⟨hpres, ?_⟩
    rw [List.contains_eq_any_beq]
    simp only [List.any_eq_false]
    intro k hk
    simp only [beq_iff_eq]
    intro hkk
    exact habs (hkk ▸ hk)
  simp only [xet, Bool.and_eq_true, decide_eq_true_eq, beq_iff_eq, gt_iff_lt]
  rw [if_neg (by simp [h2]),
    if_pos ⟨h1, by rw [List.contains_iff_exists_mem_beq]; exact ⟨_, hmem, by simp⟩⟩]

/-- Witness for C3 amended at a concrete run: key ("K", "P") absent
from T0, present in T1 with quota 1, current quota 2, both sales below
threshold — still Pass. -/
theorem C3_amended_witness :
    (xet (newInT1Keys
        [{ mucDK := "Q", maKH := "OLD", maNPP := none, soSuat := 1, doanhSo := 0, nguong := 0 }]
        [{ mucDK := "P", maKH := "K", maNPP := some "A", soSuat := 1, doanhSo := 0, nguong := 100000 }])
      { maKH := "K", mucDK := "P", maNPP_T2 := some "A", ss1 := 1, ss2 := 2,
        ds1 := 0, ds2 := 0, n1 := 100000, n2 := 200000 }).1 = KetQua.dat :=
  C3_amended _ _ _ (by decide) (by decide) (by decide) (by decide)

/-- C6: the loader's derived threshold equals base-minimum × registered
quota, with the registration level stripped and resolved through the
alias map first (falling back to the stripped original), unresolved
levels giving base 0 and a non-numeric quota treated as 0; in
particular base 100000 with quota 3 gives 300000. -/
theorem C6_threshold :
    (∀ (mt : List (String × Int)) (xm : List (String × String)) (r : RawRow)
        (c : String) (b q : Int), xm.lookup (pyStrip r.mucDK) = some c →
        mt.lookup c = some b → r.soSuat = some q →
        (xu_ly_file_row mt xm r).nguong = b * q) ∧
    (∀ (mt : List (String × Int)) (xm : List (String × String)) (r : RawRow)
        (b q : Int), xm.lookup (pyStrip r.mucDK) = none →
        mt.lookup (pyStrip r.mucDK) = some b → r.soSuat = some q →
        (xu_ly_file_row mt xm r).nguong = b * q) ∧
    (∀ (mt : List (String × Int)) (xm : List (String × String)) (r : RawRow),
        mt.lookup ((xm.lookup (pyStrip r.mucDK)).getD (pyStrip r.mucDK)) = none →
        (xu_ly_file_row mt xm r).nguong = 0) ∧
    (∀ (mt : List (String × Int)) (xm : List (String × String)) (r : RawRow),
        r.soSuat = none → (xu_ly_file_row mt xm r).nguong = 0) ∧
    (xu_ly_file_row [("DHLM", 100000)] []
      { mucDK := "DHLM", maKH := "K", maNPP := none,
        soSuat := some 3, doanhSo := 0 }).nguong = 300000 := by
  refine ⟨?_, ?_, ?_, ?_, by decide⟩
  · intro mt xm r c b q h1 h2 h3
    simp [xu_ly_file_row, h1, h2, h3]
  · intro mt xm r b q h1 h2 h3
    simp [xu_ly_file_row, h1, h2, h3]
  · intro mt xm r h
    simp [xu_ly_file_row, h]
  · intro mt xm r h
    simp [xu_ly_file_row, h]

/-- Witness for C6 at concrete rows: an alias-resolved level
(`" M70 "` → `XBM_MN`), a directly-resolved level, an unresolved level
(threshold 0) and a non-numeric quota (threshold 0). -/
theorem C6_threshold_witness :
    (xu_ly_file_row [("XBM_MN", 36000)] [("M70", "XBM_MN")]
      { mucDK := " M70 ", maKH := "K1", maNPP := none,
        soSuat := some 2, doanhSo := 0 }).nguong = 36000 * 2 ∧
    (xu_ly_file_row [("NMCD", 150000)] []
      { mucDK := "NMCD", maKH := "K2", maNPP := none,
        soSuat := some 4, doanhSo := 0 }).nguong = 150000 * 4 ∧
    (xu_ly_file_row [("NMCD", 150000)] []
      { mucDK := "ZZZ", maKH := "K3", maNPP := none,
        soSuat := some 4, doanhSo := 0 }).nguong = 0 ∧
    (xu_ly_file_row [("NMCD", 150000)] []
      { mucDK := "NMCD", maKH := "K4", maNPP := none,
        soSuat := none, doanhSo := 0 }).nguong = 0 :=
  ⟨C6_threshold.1 [("XBM_MN", 36000)] [("M70", "XBM_MN")] _ "XBM_MN" _ _
      (by decide) (by decide) rfl,
   C6_threshold.2.1 _ _ _ _ _ (by decide) (by decide) rfl,
   C6_threshold.2.2.1 _ _ _ (by decide),
   C6_threshold.2.2.2.1 _ _ _ rfl⟩

/-- C7: the decreased-quota branch and the unchanged-quota branch of
`xet` assign Pass under exactly the same condition — one period's sales
meets its threshold (`ds1 ≥ n1 ∨ ds2 ≥ n2`) — and differ only in the
rationale text (shown differing at concrete rows with equal sales and
thresholds, both in the passing and the failing case). -/
theorem C7_branch_equivalence :
    (∀ ks (r : JoinedRow),
        ¬(0 < r.ss1 ∧ r.ss2 = 0) →
        ¬(0 < r.ss1 ∧ (r.maKH, r.mucDK) ∈ ks) →
        ¬(r.ss1 = 0 ∧ 0 < r.ss2) →
        r.ss2 < r.ss1 →
        ((xet ks r).1 = KetQua.dat ↔ (r.n1 ≤ r.ds1 ∨ r.n2 ≤ r.ds2))) ∧
    (∀ ks (r : JoinedRow),
        ¬(0 < r.ss1 ∧ r.ss2 = 0) →
        ¬(0 < r.ss1 ∧ (r.maKH, r.mucDK) ∈ ks) →
        ¬(r.ss1 = 0 ∧ 0 < r.ss2) →
        ¬(r.ss1 < r.ss2 ∧ 0 < r.ss1) →
        ¬(r.ss2 < r.ss1) →
        ((xet ks r).1 = KetQua.dat ↔ (r.n1 ≤ r.ds1 ∨ r.n2 ≤ r.ds2))) ∧
    (xet [] { maKH := "K", mucDK := "P", maNPP_T2 := none, ss1 := 2, ss2 := 1,
              ds1 := 100, ds2 := 0, n1 := 50, n2 := 50 }).1 =
      (xet [] { maKH := "K", mucDK := "P", maNPP_T2 := none, ss1 := 1, ss2 := 1,
                ds1 := 100, ds2 := 0, n1 := 50, n2 := 50 }).1 ∧
    (xet [] { maKH := "K", mucDK := "P", maNPP_T2 := none, ss1 := 2, ss2 := 1,
              ds1 := 100, ds2 := 0, n1 := 50, n2 := 50 }).2 ≠
      (xet [] { maKH := "K", mucDK := "P", maNPP_T2 := none, ss1 := 1, ss2 := 1,
                ds1 := 100, ds2 := 0, n1 := 50, n2 := 50 }).2 ∧
    (xet [] { maKH := "K", mucDK := "P", maNPP_T2 := none, ss1 := 2, ss2 := 1,
              ds1 := 0, ds2 := 0, n1 := 50, n2 := 50 }).1 =
      (xet [] { maKH := "K", mucDK := "P", maNPP_T2 := none, ss1 := 1, ss2 := 1,
                ds1 := 0, ds2 := 0, n1 := 50, n2 := 50 }).1 ∧
    (xet [] { maKH := "K", mucDK := "P", maNPP_T2 := none, ss1 := 2, ss2 := 1,
              ds1 := 0, ds2 := 0, n1 := 50, n2 := 50 }).2 ≠
      (xet [] { maKH := "K", mucDK := "P", maNPP_T2 := none, ss1 := 1, ss2 := 1,
                ds1 := 0, ds2 := 0, n1 := 50, n2 := 50 }).2 := by
  refine ⟨?_, ?_, by decide, by decide, by decide, by decide⟩
  · intro ks r h1 h2 h3 hdec
    simp only [xet, Bool.and_eq_true, decide_eq_true_eq, beq_iff_eq, gt_iff_lt,
      List.contains_iff_exists_mem_beq, exists_eq_right, exists_eq_right',
      Bool.or_eq_true, ge_iff_le]
    rw [if_neg h1, if_neg h2, if_neg h3, if_neg (by omega), if_pos hdec]
    by_cases hds : (r.n1 ≤ r.ds1 ∨ r.n2 ≤ r.ds2)
    · rw [if_pos hds]
      simpa using hds
    · rw [if_neg hds]
      simp [hds]
  · intro ks r h1 h2 h3 h4 h5
    simp only [xet, Bool.and_eq_true, decide_eq_true_eq, beq_iff_eq, gt_iff_lt,
      List.contains_iff_exists_mem_beq, exists_eq_right, exists_eq_right',
      Bool.or_eq_true, ge_iff_le]
    rw [if_neg h1, if_neg h2, if_neg h3, if_neg h4, if_neg h5]
    by_cases hds : (r.n1 ≤ r.ds1 ∨ r.n2 ≤ r.ds2)
    · rw [if_pos hds]
      simpa using hds
    · rw [if_neg hds]
      simp [hds]

/-- Witness for C7: the two branch characterizations applied at
concrete rows that reach the decreased branch and the unchanged
branch. -/
theorem C7_branch_equivalence_witness :
    ((xet [] { maKH := "K", mucDK := "P", maNPP_T2 := none, ss1 := 2, ss2 := 1,
               ds1 := 100, ds2 := 0, n1 := 50, n2 := 50 }).1 = KetQua.dat ↔
      ((50 : Int) ≤ 100 ∨ (50 : Int) ≤ 0)) ∧
    ((xet [] { maKH := "K", mucDK := "P", maNPP_T2 := none, ss1 := 1, ss2 := 1,
               ds1 := 100, ds2 := 0, n1 := 50, n2 := 50 }).1 = KetQua.dat ↔
      ((50 : Int) ≤ 100 ∨ (50 : Int) ≤ 0)) :=
  ⟨C7_branch_equivalence.1 [] _ (by decide) (by decide) (by decide) (by decide),
   C7_branch_equivalence.2.1 [] _ (by decide) (by decide) (by decide) (by decide) (by decide)⟩

/-- Witness for C2: the four-outcome disjunction instantiated at a
concrete classified row of a concrete run, discharging the membership
hypothesis. -/
theorem C2_outcome_partition_witness :
    (({ maKH := "K", mucDK := "P", maNPP_T2 := none, ss1 := 1, ss2 := 0,
        ds1 := 0, ds2 := 0, n1 := 100, n2 := 0 },
      KetQua.xoa, "Tháng trước có tham gia, tháng sau không tham gia") : CRow).2.1 = KetQua.dat ∨
    (({ maKH := "K", mucDK := "P", maNPP_T2 := none, ss1 := 1, ss2 := 0,
        ds1 := 0, ds2 := 0, n1 := 100, n2 := 0 },
      KetQua.xoa, "Tháng trước có tham gia, tháng sau không tham gia") : CRow).2.1 = KetQua.khongDat ∨
    (({ maKH := "K", mucDK := "P", maNPP_T2 := none, ss1 := 1, ss2 := 0,
        ds1 := 0, ds2 := 0, n1 := 100, n2 := 0 },
      KetQua.xoa, "Tháng trước có tham gia, tháng sau không tham gia") : CRow).2.1 = KetQua.khongXet ∨
    (({ maKH := "K", mucDK := "P", maNPP_T2 := none, ss1 := 1, ss2 := 0,
        ds1 := 0, ds2 := 0, n1 := 100, n2 := 0 },
      KetQua.xoa, "Tháng trước có tham gia, tháng sau không tham gia") : CRow).2.1 = KetQua.xoa :=
  (C2_outcome_partition []
      [{ mucDK := "P", maKH := "K", maNPP := some "A", soSuat := 1, doanhSo := 0, nguong := 100 }]
      []).2.1 _ (by decide)

/-- C4 counterexample: the label "abc" matches none of the recognized
formats and the `pd.to_datetime` fallback fails on it, so
`parse_giai_to_dt` RAISES (returns an error), refuting the claim that
every label string yields a sortable ordinal with unparseable labels
mapped to (0, 0). -/
theorem C4_counterexample :
    parse_giai_to_dt (fun _ => none) 2025 "abc" =
      Except.error "Không nhận diện được Giai đoạn: abc" ∧
    parse_giai_to_dt (fun _ => none) 2025 "abc" ≠ Except.ok (0, 0) := by
  have h1 : parse_giai_to_dt (fun _ => none) 2025 "abc" =
      Except.error "Không nhận diện được Giai đoạn: abc" := rfl
  refine ⟨h1, ?_⟩
  rw [h1]
  simp

/-- C4 amended: parsing a period label CAN fail — a label matching no
recognized format raises a `"Không nhận diện được Giai đoạn"` error;
the upload loop catches it, excludes that one file (the recognized
entries are exactly those of the remaining files) and records a
`"- Lỗi đọc ..."` diagnostic, so the failure is isolated rather than
fatal to the run; the recognized formats do yield sortable ordinals. -/
theorem C4_amended :
    (∀ (pdParse : String → Option (Nat × Nat)) (yr : Nat)
        (pre post : List (String × String)) (f : String × String) (e : String),
        parse_giai_to_dt pdParse yr f.2 = Except.error e →
        (uploadLoop pdParse yr (pre ++ f :: post)).1 =
          (uploadLoop pdParse yr (pre ++ post)).1 ∧
        ("- Lỗi đọc " ++ f.1 ++ ": " ++ e) ∈ (uploadLoop pdParse yr (pre ++ f :: post)).2) ∧
    parse_giai_to_dt (fun _ => none) 2025 "Tháng 11/2025" = Except.ok (2025, 11) ∧
    parse_giai_to_dt (fun _ => none) 2025 "11/2025" = Except.ok (2025, 11) ∧
    parse_giai_to_dt (fun _ => none) 2025 "2025-11" = Except.ok (2025, 11) ∧
    parse_giai_to_dt (fun _ => none) 2025 "T11" = Except.ok (2025, 11) := by
  refine ⟨?_, rfl, rfl, rfl, rfl⟩
  intro pdParse yr pre post f e hf
  induction pre with
  | nil =>
    refine ⟨?_, ?_⟩ <;> simp [uploadLoop, hf]
  | cons p ps ih =>
    simp only [List.cons_append, uploadLoop]
    cases hp : parse_giai_to_dt pdParse yr p.2 with
    | ok dt => exact ⟨by simp [ih.1], ih.2⟩
    | error er => exact ⟨ih.1, List.mem_cons_of_mem _ ih.2⟩

/-- Witness for C4 amended: a two-file upload where the first file's
label is unparseable — its entries equal the good file's alone and the
diagnostic is recorded. -/
theorem C4_amended_witness :
    (uploadLoop (fun _ => none) 2025 [("bad.xlsx", "abc"), ("good.xlsx", "11/2025")]).1 =
      (uploadLoop (fun _ => none) 2025 [("good.xlsx", "11/2025")]).1 ∧
    ("- Lỗi đọc bad.xlsx: Không nhận diện được Giai đoạn: abc") ∈
      (uploadLoop (fun _ => none) 2025 [("bad.xlsx", "abc"), ("good.xlsx", "11/2025")]).2 :=
  C4_amended.1 (fun _ => none) 2025 [] [("good.xlsx", "11/2025")] ("bad.xlsx", "abc") _ rfl

theorem entLeB_total : ∀ a b : Entry, entLeB a b = true ∨ entLeB b a = true := by
  intro a b
  simp only [entLeB, dtLeB, Bool.or_eq_true, Bool.and_eq_true, decide_eq_true_eq, beq_iff_eq]
  omega

theorem entLeB_trans : ∀ a b c : Entry,
    entLeB a b = true → entLeB b c = true → entLeB a c = true := by
  intro a b c
  simp only [entLeB, dtLeB, Bool.or_eq_true, Bool.and_eq_true, decide_eq_true_eq, beq_iff_eq]
  omega

/-- C5 counterexample: with FOUR periods, the report loop picks
`items_sorted[0]` — the overall-earliest period p1 — as T0, not the
earliest of the three most-recent retained periods (p2), refuting the
claim; p1 ≠ p2. -/
theorem C5_counterexample :
    selectPeriods [{ name := "p1", dt := (2025, 1) }, { name := "p2", dt := (2025, 2) },
                   { name := "p3", dt := (2025, 3) }, { name := "p4", dt := (2025, 4) }] =
      some ({ name := "p3", dt := (2025, 3) }, { name := "p4", dt := (2025, 4) },
            some { name := "p1", dt := (2025, 1) }) ∧
    ({ name := "p1", dt := (2025, 1) } : Entry) ≠ { name := "p2", dt := (2025, 2) } :=
  ⟨rfl, by decide⟩

/-- C5 amended: whenever `selectPeriods` succeeds, T2 is the
chronologically latest period and T1 the second-latest: the group is a
permutation of `rest ++ [T1, T2]` where every period in `rest` is
chronologically ≤ T1 and T1 ≤ T2 (both are members of the group, which
has at least two periods); T0 is present exactly when three or more
periods exist and is then the OVERALL chronologically earliest period
of the group (which coincides with the third-most-recent only when
exactly three periods exist); intermediate periods are unused. -/
theorem C5_amended : ∀ (items : List Entry) (t1 t2 : Entry) (ot0 : Option Entry),
    selectPeriods items = some (t1, t2, ot0) →
    t1 ∈ items ∧ t2 ∈ items ∧ 2 ≤ items.length ∧
    (∀ e ∈ items, entLeB e t2 = true) ∧
    (∃ rest : List Entry, items.Perm (rest ++ [t1, t2]) ∧
      (∀ e ∈ rest, entLeB e t1 = true) ∧ entLeB t1 t2 = true) ∧
    (ot0.isSome ↔ 3 ≤ items.length) ∧
    (∀ t0, ot0 = some t0 → t0 ∈ items ∧ ∀ e ∈ items, entLeB t0 e = true) := by
  intro items t1 t2 ot0 h
  unfold selectPeriods at h
  cases hl : last2 (stableSort entLeB items) with
  | none => rw [hl] at h; exact absurd h (by simp)
  | some p =>
    rw [hl] at h
    obtain ⟨a, b⟩ := p
    simp only [Option.some.injEq, Prod.mk.injEq] at h
    obtain ⟨rfl, rfl, rfl⟩ := h
    have hspec := last2_spec _ _ _ hl
    have hperm := stableSort_perm entLeB items
    have hlen : (stableSort entLeB items).length = items.length := hperm.length_eq
    have hpw := stableSort_pairwise entLeB entLeB_total entLeB_trans items
    refine ⟨(mem_stableSort entLeB).mp hspec.2.1,
      (mem_stableSort entLeB).mp (List.mem_of_mem_getLast? hspec.1), ?_, ?_, ?_, ?_, ?_⟩
    · omega
    · intro e he
      exact pairwise_last_max entLeB entLeB_total _ hpw hspec.1
        ((mem_stableSort entLeB).mpr he)
    · obtain ⟨pre, hpre⟩ := last2_decomp _ _ _ hl
      have hperm2 := stableSort_perm entLeB items
      have hpw2 := hpw
      rw [hpre] at hperm2 hpw2
      rw [List.pairwise_append] at hpw2
      refine ⟨pre, hperm2.symm, ?_, ?_⟩
      · intro e he
        exact hpw2.2.2 e he a (by simp)
      · have hpair := hpw2.2.1
        rw [List.pairwise_cons] at hpair
        exact hpair.1 b (by simp)
    · by_cases h3 : 3 ≤ (stableSort entLeB items).length
      · rw [if_pos h3]
        have hne : stableSort entLeB items ≠ [] := List.ne_nil_of_length_pos (by omega)
        rw [Option.isSome_iff_exists]
        constructor
        · intro _; omega
        · intro _
          obtain ⟨x, xs, hx⟩ := List.exists_cons_of_ne_nil hne
          exact ⟨x, by rw [hx]; rfl⟩
      · rw [if_neg h3]
        simp only [Option.isSome_none, Bool.false_eq_true, false_iff]
        omega
    · intro t0 ht0
      by_cases h3 : 3 ≤ (stableSort entLeB items).length
      · rw [if_pos h3] at ht0
        refine ⟨(mem_stableSort entLeB).mp (List.mem_of_mem_head? ht0), ?_⟩
        intro e he
        exact pairwise_head_min entLeB entLeB_total hpw ht0
          ((mem_stableSort entLeB).mpr he)
      · rw [if_neg h3] at ht0
        exact absurd ht0 (by simp)

/-- Witness for C5 amended at the concrete four-period group. -/
theorem C5_amended_witness :
    ({ name := "p3", dt := (2025, 3) } : Entry) ∈
      ([{ name := "p1", dt := (2025, 1) }, { name := "p2", dt := (2025, 2) },
        { name := "p3", dt := (2025, 3) }, { name := "p4", dt := (2025, 4) }] : List Entry) ∧
    ({ name := "p4", dt := (2025, 4) } : Entry) ∈
      ([{ name := "p1", dt := (2025, 1) }, { name := "p2", dt := (2025, 2) },
        { name := "p3", dt := (2025, 3) }, { name := "p4", dt := (2025, 4) }] : List Entry) ∧
    2 ≤ ([{ name := "p1", dt := (2025, 1) }, { name := "p2", dt := (2025, 2) },
          { name := "p3", dt := (2025, 3) }, { name := "p4", dt := (2025, 4) }] : List Entry).length ∧
    (∀ e ∈ ([{ name := "p1", dt := (2025, 1) }, { name := "p2", dt := (2025, 2) },
             { name := "p3", dt := (2025, 3) }, { name := "p4", dt := (2025, 4) }] : List Entry),
      entLeB e { name := "p4", dt := (2025, 4) } = true) ∧
    (∃ rest : List Entry,
      ([{ name := "p1", dt := (2025, 1) }, { name := "p2", dt := (2025, 2) },
        { name := "p3", dt := (2025, 3) }, { name := "p4", dt := (2025, 4) }] : List Entry).Perm
        (rest ++ [{ name := "p3", dt := (2025, 3) }, { name := "p4", dt := (2025, 4) }]) ∧
      (∀ e ∈ rest, entLeB e { name := "p3", dt := (2025, 3) } = true) ∧
      entLeB { name := "p3", dt := (2025, 3) } { name := "p4", dt := (2025, 4) } = true) ∧
    ((some { name := "p1", dt := (2025, 1) } : Option Entry).isSome ↔
      3 ≤ ([{ name := "p1", dt := (2025, 1) }, { name := "p2", dt := (2025, 2) },
            { name := "p3", dt := (2025, 3) }, { name := "p4", dt := (2025, 4) }] : List Entry).length) ∧
    (∀ t0, (some { name := "p1", dt := (2025, 1) } : Option Entry) = some t0 →
      t0 ∈ ([{ name := "p1", dt := (2025, 1) }, { name := "p2", dt := (2025, 2) },
             { name := "p3", dt := (2025, 3) }, { name := "p4", dt := (2025, 4) }] : List Entry) ∧
      ∀ e ∈ ([{ name := "p1", dt := (2025, 1) }, { name := "p2", dt := (2025, 2) },
              { name := "p3", dt := (2025, 3) }, { name := "p4", dt := (2025, 4) }] : List Entry),
        entLeB t0 e = true) :=
  C5_amended _ _ _ _ rfl

/-- C8: the removed-duplicates set (`df_removed_multi`) is provably
EMPTY for every input — the indicator merge keys on the customer id
against the deduplicated frame, where every customer id still exists,
so the `left_only` filter never keeps a row and the duplicate-count
rationale line is dead code.  At the claim's concrete two-row input
(customer "K" under distributors "A" and "B"), the B row (sorting last)
is kept, but the A row vanishes: it is in neither the kept nor the
removed output, contradicting the claim that it moves to the removed
set with a count-2 rationale. -/
theorem C8_duplicates_dropped_not_removed :
    (∀ final : List CRow, (dedupStage final).2 = []) ∧
    dedupStage
      [({ maKH := "K", mucDK := "P", maNPP_T2 := some "A", ss1 := 1, ss2 := 1,
          ds1 := 0, ds2 := 0, n1 := 0, n2 := 0 }, KetQua.dat, "ga"),
       ({ maKH := "K", mucDK := "P", maNPP_T2 := some "B", ss1 := 1, ss2 := 1,
          ds1 := 0, ds2 := 0, n1 := 0, n2 := 0 }, KetQua.dat, "gb")] =
      ([({ maKH := "K", mucDK := "P", maNPP_T2 := some "B", ss1 := 1, ss2 := 1,
           ds1 := 0, ds2 := 0, n1 := 0, n2 := 0 }, KetQua.dat, "gb")], []) := by
  refine ⟨?_, rfl⟩
  intro final
  show dedupRemoved final = []
  unfold dedupRemoved
  rw [List.map_eq_nil_iff, List.filter_eq_nil_iff]
  intro c hc
  have hcf : c ∈ final := List.mem_of_mem_filter hc
  obtain ⟨y, hy, hk⟩ :=
    dropDupKeepLast_covers (fun c : CRow => c.1.maKH) (stableSort crowLeB final) c
      ((mem_stableSort _).mpr hcf)
  have hany : (dedupKept final).any (fun d => d.1.maKH == c.1.maKH) = true := by
    rw [List.any_eq_true]
    exact ⟨y, hy, hk⟩
  rw [hany]
  decide

set_option maxHeartbeats 1000000 in
/-- C9 counterexample: with prior label "Tháng 9/2025" and current
label "Tháng 10/2025" (chronological order, but "...Tháng 10..." sorts
BEFORE "...Tháng 9..." as a string), the shortfall note of a Fail row
with threshold 300000, prior sales 250000 and current sales 100000 is
computed from the PRIOR period's sales — "Thiếu: 50.000" — instead of
the claimed current-period shortfall "Thiếu: 200.000". -/
theorem C9_counterexample :
    gsbhNote none "Tháng 9/2025" "Tháng 10/2025"
      [{ ketQua := KetQua.khongDat, ghiChu := "Doanh số 2 tháng liên tiếp không đủ theo yêu cầu",
         nguong := 300000, ds0 := none, ds1 := 250000, ds2 := 100000 }] =
      [{ ketQua := KetQua.khongDat, ghiChu := "Thiếu: 50.000",
         nguong := 300000, ds0 := none, ds1 := 250000, ds2 := 100000 }] ∧
    "Thiếu: 50.000" ≠ "Thiếu: 200.000" :=
  ⟨rfl, by decide⟩

set_option maxHeartbeats 1000000 in
/-- C9 amended: the rationale of exactly the Fail rows is overwritten
with "Thiếu:" plus the thousands-formatted ('.'-separated) difference,
floored at 0, between the threshold and the sales column whose label
sorts LAST lexicographically; when the current label sorts after the
prior label (as with "Tháng 10/2025" → "Tháng 11/2025") this is the
current period and the note equals the claimed
threshold − current-sales amount, e.g. 200000 displayed as
"200.000". -/
theorem C9_amended :
    (∀ (g1 g2 : String) (rows : List OutRow),
        strLeB (dsPrefix ++ g1) (dsPrefix ++ g2) = true →
        gsbhNote none g1 g2 rows = rows.map fun r =>
          if r.ketQua = KetQua.khongDat then
            { r with ghiChu := "Thiếu: " ++ fmt_v (max (r.nguong - r.ds2) 0) }
          else r) ∧
    fmt_v 200000 = "200.000" ∧
    gsbhNote none "Tháng 10/2025" "Tháng 11/2025"
      [{ ketQua := KetQua.khongDat, ghiChu := "Doanh số 2 tháng liên tiếp không đủ theo yêu cầu",
         nguong := 300000, ds0 := none, ds1 := 250000, ds2 := 100000 }] =
      [{ ketQua := KetQua.khongDat, ghiChu := "Thiếu: 200.000",
         nguong := 300000, ds0 := none, ds1 := 250000, ds2 := 100000 }] := by
  refine ⟨?_, rfl, rfl⟩
  intro g1 g2 rows h
  have hsort : stableSort strLeB [dsPrefix ++ g1, dsPrefix ++ g2] =
      [dsPrefix ++ g1, dsPrefix ++ g2] := by
    simp [stableSort, insSorted, h]
  unfold gsbhNote
  rw [show ((match (none : Option String) with
      | some g => [dsPrefix ++ g]
      | none => []) ++ [dsPrefix ++ g1, dsPrefix ++ g2]) =
        [dsPrefix ++ g1, dsPrefix ++ g2] from rfl, hsort,
    show ([dsPrefix ++ g1, dsPrefix ++ g2]).getLast? = some (dsPrefix ++ g2) from rfl]
  apply List.map_congr_left
  intro r _
  by_cases hk : r.ketQua = KetQua.khongDat
  · simp [hk, beq_self_eq_true]
  · simp [hk]

set_option maxHeartbeats 1000000 in
/-- Witness for C9 amended: the general rewriting rule applied at
labels whose lexicographic and chronological orders agree. -/
theorem C9_amended_witness :
    gsbhNote none "Tháng 10/2025" "Tháng 11/2025"
      [{ ketQua := KetQua.khongDat, ghiChu := "x",
         nguong := 300000, ds0 := none, ds1 := 250000, ds2 := 100000 },
       { ketQua := KetQua.dat, ghiChu := "",
         nguong := 300000, ds0 := none, ds1 := 250000, ds2 := 400000 }] =
      [{ ketQua := KetQua.khongDat, ghiChu := "Thiếu: " ++ fmt_v (max ((300000 : Int) - 100000) 0),
         nguong := 300000, ds0 := none, ds1 := 250000, ds2 := 100000 },
       { ketQua := KetQua.dat, ghiChu := "",
         nguong := 300000, ds0 := none, ds1 := 250000, ds2 := 400000 }] := by
  rw [C9_amended.1 "Tháng 10/2025" "Tháng 11/2025" _ (by decide)]
  rfl

/-- C10: the carried-forward T0 figures are left-joined onto the
reconciled rows by customer id ALONE — every reconciled row is repeated
once per T0 occurrence of its customer id (the output length is the sum
over rows of max 1 (T0 matches by customer id)), and a row of level "P"
receives T0 figures recorded under level "Q" — whereas the main T1/T2
outer join keeps rows of the same customer under different levels
separate, and the new-enrollee key set subtracts only exact
(customer id, level) pairs. -/
theorem C10_t0_join_by_customer_only :
    (∀ (rows : List JoinedRow) (t0 : List Rec),
        (leftJoinT0 rows t0).length =
          (rows.map fun r => max 1 (t0.countP fun b => b.maKH == r.maKH)).sum) ∧
    leftJoinT0
      [{ maKH := "K", mucDK := "P", maNPP_T2 := some "A", ss1 := 1, ss2 := 1,
         ds1 := 0, ds2 := 0, n1 := 100, n2 := 100 }]
      [{ mucDK := "P", maKH := "K", maNPP := none, soSuat := 1, doanhSo := 11, nguong := 0 },
       { mucDK := "Q", maKH := "K", maNPP := none, soSuat := 2, doanhSo := 22, nguong := 0 }] =
      [{ base := { maKH := "K", mucDK := "P", maNPP_T2 := some "A", ss1 := 1, ss2 := 1,
                   ds1 := 0, ds2 := 0, n1 := 100, n2 := 100 }, ss0 := some 1, ds0 := some 11 },
       { base := { maKH := "K", mucDK := "P", maNPP_T2 := some "A", ss1 := 1, ss2 := 1,
                   ds1 := 0, ds2 := 0, n1 := 100, n2 := 100 }, ss0 := some 2, ds0 := some 22 }] ∧
    outerJoin
      [{ mucDK := "P", maKH := "K", maNPP := some "A", soSuat := 1, doanhSo := 10, nguong := 100 }]
      [{ mucDK := "Q", maKH := "K", maNPP := some "B", soSuat := 2, doanhSo := 20, nguong := 200 }] =
      [{ maKH := "K", mucDK := "P", maNPP_T2 := none, ss1 := 1, ss2 := 0,
         ds1 := 10, ds2 := 0, n1 := 100, n2 := 0 },
       { maKH := "K", mucDK := "Q", maNPP_T2 := some "B", ss1 := 0, ss2 := 2,
         ds1 := 0, ds2 := 20, n1 := 0, n2 := 200 }] ∧
    newInT1Keys
      [{ mucDK := "Q", maKH := "K", maNPP := none, soSuat := 1, doanhSo := 0, nguong := 0 }]
      [{ mucDK := "P", maKH := "K", maNPP := some "A", soSuat := 1, doanhSo := 0, nguong := 100 }] =
      [("K", "P")] := by
  refine ⟨?_, rfl, rfl, rfl⟩
  intro rows t0
  induction rows with
  | nil => rfl
  | cons r rs ih =>
    rw [show leftJoinT0 (r :: rs) t0 =
        (match t0.filter (fun b => b.maKH == r.maKH) with
          | [] => [{ base := r, ss0 := none, ds0 := none }]
          | ms => ms.map fun b =>
              { base := r, ss0 := some b.soSuat, ds0 := some b.doanhSo }) ++
          leftJoinT0 rs t0 from rfl]
    rw [List.length_append]
    simp only [List.map_cons, List.sum_cons]
    rw [ih]
    congr 1
    cases hms : t0.filter (fun b => b.maKH == r.maKH) with
    | nil =>
      simp [hms, List.countP_eq_length_filter]
    | cons m ms =>
      have hcnt : (t0.countP fun b => b.maKH == r.maKH) = (m :: ms).length := by
        rw [List.countP_eq_length_filter, hms]
      simp [hms, hcnt]
